import Mathlib

/-!
Verification of the spoti-py client library specification against the source.

The development shallowly embeds the parts of `src/spotipy` (and, where a claim
cites it, `src/aiospotify`) that the claims concern:

* `spotipy/objects/base.py`  — the `PagingObject` container;
* `spotipy/client.py`        — the pagination aggregation helpers
  `get_all_album_tracks`, `get_all_playlist_items`, `get_full_album`,
  `get_full_playlist` (their track-list aggregation logic);
* `spotipy/http.py`          — the ID-batch guards of the `get_multiple_*`
  endpoints and the retry loop of `HTTPClient.request`;
* `aiospotify/http.py`       — the retry loop of its `HTTPClient.request`;
* `spotipy/errors.py`        — the `HTTPError` family and `HTTPErrorMapping`;
* `spotipy/objects/credentials.py` — `ClientCredentials` / `UserCredentials`;
* `spotipy/objects/album.py` — `SimpleAlbum` construction from JSON data.

Network fetches are modelled by an environment: a ground-truth item list for
pagination (pages are contiguous slices of it, as the upstream API guarantees)
and a stream of transport events for the retry loop.  All embedded functions
are executable.
-/

namespace Spotipy

/-- `PagingObject` from `spotipy/objects/base.py`: wraps one page of items plus
its metadata (`href`, `limit`, `next`, `offset`, `previous`, `total`). -/
structure PagingObject (α : Type) where
  href : String
  items : List α
  limit : Nat
  next : Option String
  offset : Nat
  previous : Option String
  total : Nat
deriving Repr

/-- Environment model of a single-page fetch: the upstream API holds the
ground-truth sequence `all` and answers a request with `limit`/`offset` by the
contiguous slice `all[offset : offset+limit]`, reporting `total = all.length`.
This models `HTTPClient.get_album_tracks` / `get_playlist_items` responses. -/
def pageResponse (all : List α) (limit offset : Nat) : PagingObject α :=
  { href := "", items := (all.drop offset).take limit, limit := limit,
    next := none, offset := offset, previous := none, total := all.length }

/-- `math.ceil(n / k)` for natural `n`, `k > 0`, as used by the aggregation
helpers in `spotipy/client.py`. -/
def ceilDiv (n k : Nat) : Nat := (n + k - 1) / k

/-- `Client.get_all_album_tracks` (`spotipy/client.py` lines 91–117), with the
network replaced by `pageResponse all`: fetch the first page at
`limit=50, offset=0`; if `total ≤ 50` return its items, else extend with the
pages at `offset = i * 50` for `i` in `range(1, math.ceil(total / 50))`. -/
def getAllAlbumTracks (all : List α) : List α :=
  let paging := pageResponse all 50 0
  let tracks := paging.items
  if paging.total ≤ 50 then
    tracks
  else
    tracks ++ ((List.range (ceilDiv paging.total 50)).drop 1).flatMap
      (fun i => (pageResponse all 50 (i * 50)).items)

/-- `Client.get_all_playlist_items` (`spotipy/client.py` lines 638–673): same
loop with page size 100. -/
def getAllPlaylistItems (all : List α) : List α :=
  let paging := pageResponse all 100 0
  let items := paging.items
  if paging.total ≤ 100 then
    items
  else
    items ++ ((List.range (ceilDiv paging.total 100)).drop 1).flatMap
      (fun i => (pageResponse all 100 (i * 100)).items)

/-- The track list built by `Client.get_full_album` (`spotipy/client.py` lines
119–142).  The album response embeds its first track page (`limit=50,
offset=0`, the `tracks` paging object of the album JSON); when
`total > 50` the helper extends `album.tracks` with the pages at
`offset = i * 50` for `i` in `range(2, math.ceil(total / 50))` — note the
loop starts at 2 in the source. -/
def getFullAlbumTracks (all : List α) : List α :=
  let paging := pageResponse all 50 0
  let tracks := paging.items
  if paging.total ≤ 50 then
    tracks
  else
    tracks ++ ((List.range (ceilDiv paging.total 50)).drop 2).flatMap
      (fun i => (pageResponse all 50 (i * 50)).items)

/-- The track list built by `Client.get_full_playlist` (`spotipy/client.py`
lines 675–700): first page of 100 from the playlist JSON, then pages at
`offset = i * 100` for `i` in `range(1, math.ceil(total / 100))`. -/
def getFullPlaylistTracks (all : List α) : List α :=
  let paging := pageResponse all 100 0
  let tracks := paging.items
  if paging.total ≤ 100 then
    tracks
  else
    tracks ++ ((List.range (ceilDiv paging.total 100)).drop 1).flatMap
      (fun i => (pageResponse all 100 (i * 100)).items)

/-- Concatenating the pages at offsets `0, k, …, (n-1)·k` yields the first
`n·k` elements of the ground truth. -/
theorem flatMap_range_page (all : List α) (k n : Nat) :
    (List.range n).flatMap (fun i => (pageResponse all k (i * k)).items) =
      all.take (n * k) := by
  induction n with
  | zero => simp
  | succ m ih =>
      rw [List.range_succ, List.flatMap_append, ih]
      simp only [List.flatMap_cons, List.flatMap_nil, List.append_nil,
        pageResponse]
      rw [Nat.succ_mul, List.take_add]

/-- `n ≤ ceilDiv n k * k` for positive `k`. -/
theorem le_ceilDiv_mul (n k : Nat) (hk : 0 < k) : n ≤ ceilDiv n k * k := by
  unfold ceilDiv
  have h1 := Nat.div_add_mod (n + k - 1) k
  have h2 := Nat.mod_lt (n + k - 1) hk
  rw [Nat.mul_comm] at h1
  omega

/-- The first page at offset `0` followed by the pages at offsets `i·k` for
`i = 1 .. ceilDiv total k - 1` reconstructs the ground truth exactly. -/
theorem firstPage_append_rest (all : List α) (k : Nat) (hk : 0 < k)
    (h : 1 ≤ ceilDiv all.length k) :
    (pageResponse all k 0).items ++
      ((List.range (ceilDiv all.length k)).drop 1).flatMap
        (fun i => (pageResponse all k (i * k)).items) = all := by
  have htake : (List.range (ceilDiv all.length k)).take 1 = [0] := by
    rw [List.take_range]
    have : min 1 (ceilDiv all.length k) = 1 := by omega
    rw [this]
    rfl
  have hsplit := List.take_append_drop 1 (List.range (ceilDiv all.length k))
  have hpage0 : (pageResponse all k 0).items =
      [0].flatMap (fun i => (pageResponse all k (i * k)).items) := by
    simp
  rw [hpage0, ← List.flatMap_append, ← htake, hsplit, flatMap_range_page]
  exact List.take_of_length_le (le_ceilDiv_mul _ _ hk)

/-- C1 (spec §4.3, §8): `get_all_album_tracks` and `get_all_playlist_items`
return exactly the ground-truth sequence — `total` items, first page at
offset 0, pages `1 .. ceil(total/pageSize) - 1` at `offset = i · pageSize`,
concatenated in page order with no duplicates and no gaps. -/
theorem getAll_eq_all (all : List α) :
    getAllAlbumTracks all = all ∧ getAllPlaylistItems all = all := by
  constructor
  · unfold getAllAlbumTracks
    by_cases h : (pageResponse all 50 0).total ≤ 50
    · simp only [h, if_true]
      simp only [pageResponse] at h ⊢
      simpa using List.take_of_length_le h
    · simp only [h, if_false]
      have hlen : ¬ all.length ≤ 50 := h
      exact firstPage_append_rest all 50 (by omega)
        (by unfold ceilDiv; omega)
  · unfold getAllPlaylistItems
    by_cases h : (pageResponse all 100 0).total ≤ 100
    · simp only [h, if_true]
      simp only [pageResponse] at h ⊢
      simpa using List.take_of_length_le h
    · simp only [h, if_false]
      have hlen : ¬ all.length ≤ 100 := h
      exact firstPage_append_rest all 100 (by omega)
        (by unfold ceilDiv; omega)

/-- C2 (spec §4.3): the "full playlist" helper does append the remaining
pages at offsets `i · 100` for `i = 1 .. ceil(total/100) - 1` and so returns
all `total` tracks; but `get_full_album` starts its loop at `range(2, …)`
(`spotipy/client.py` line 132), skipping the page at offset 50: on an album
of 60 tracks it fetches no extra page at all and ends with only the 50
first-page tracks instead of the 60 the claim requires. -/
theorem getFull_playlist_ok_album_bug :
    (∀ (all : List Nat), getFullPlaylistTracks all = all) ∧
    (getFullAlbumTracks (List.range 60)).length = 50 ∧
    (List.range 60).length = 60 := by
  refine ⟨fun all => ?_, by decide, by decide⟩
  unfold getFullPlaylistTracks
  by_cases h : (pageResponse all 100 0).total ≤ 100
  · simp only [h, if_true]
    simp only [pageResponse] at h ⊢
    simpa using List.take_of_length_le h
  · simp only [h, if_false]
    have hlen : ¬ all.length ≤ 100 := h
    exact firstPage_append_rest all 100 (by omega)
      (by unfold ceilDiv; omega)

/-! ## ID-batch endpoints (`spotipy/http.py`) -/

/-- `Route` from `spotipy/http.py`: an HTTP method plus a path (the
`get_multiple_*` routes carry no path parameters). -/
structure Route where
  method : String
  path : String
deriving Repr, DecidableEq

/-- `Route.url`: `BASE + path` (no parameters to substitute here). -/
def Route.url (r : Route) : String := "https://api.spotify.com/v1" ++ r.path

/-- The request an endpoint hands to `HTTPClient.request` (the executor):
route plus query parameters.  An endpoint that raises before building this
never invokes the executor/transport. -/
structure PreparedRequest where
  route : Route
  query : List (String × String)
deriving Repr, DecidableEq

/-- `if market: query["market"] = market` — Python truthiness skips both
`None` and the empty string. -/
def marketQuery : Option String → List (String × String)
  | some m => if m = "" then [] else [("market", m)]
  | none => []

/-- Shared body of the `get_multiple_*` endpoints: if `len(ids) > maxIds`
raise `ValueError` (before any network call), else build the request with
`ids` joined by commas. -/
def getMultiple (maxIds : Nat) (path : String) (ids : List String)
    (market : Option String) : Except String PreparedRequest :=
  if ids.length > maxIds then
    .error ("'ids' can not contain more than " ++ toString maxIds ++ " ids.")
  else
    .ok { route := { method := "GET", path := path },
          query := [("ids", String.intercalate "," ids)] ++ marketQuery market }

/-- `HTTPClient.get_multiple_albums` (`spotipy/http.py` lines 230–250). -/
def get_multiple_albums (ids : List String) (market : Option String) :
    Except String PreparedRequest :=
  getMultiple 20 "/albums" ids market

/-- `HTTPClient.get_multiple_artists` (`spotipy/http.py` lines 395–415). -/
def get_multiple_artists (ids : List String) (market : Option String) :
    Except String PreparedRequest :=
  getMultiple 50 "/artists" ids market

/-- `HTTPClient.get_multiple_shows` (`spotipy/http.py` lines 490–510). -/
def get_multiple_shows (ids : List String) (market : String) :
    Except String PreparedRequest :=
  getMultiple 50 "/shows" ids (some market)

/-- `HTTPClient.get_multiple_episodes` (`spotipy/http.py` lines 629–648). -/
def get_multiple_episodes (ids : List String) (market : Option String) :
    Except String PreparedRequest :=
  getMultiple 50 "/episodes" ids market

/-- `HTTPClient.get_multiple_tracks` (`spotipy/http.py` lines 747–767). -/
def get_multiple_tracks (ids : List String) (market : Option String) :
    Except String PreparedRequest :=
  getMultiple 50 "/tracks" ids market

/-- `HTTPClient.get_multiple_tracks_audio_features`
(`spotipy/http.py` lines 857–873): limit 100, no market parameter. -/
def get_multiple_tracks_audio_features (ids : List String) :
    Except String PreparedRequest :=
  getMultiple 100 "/audio-features" ids none

theorem getMultiple_error_iff (maxIds : Nat) (path : String)
    (ids : List String) (market : Option String) :
    (∃ e, getMultiple maxIds path ids market = .error e) ↔ ids.length > maxIds := by
  unfold getMultiple
  by_cases h : ids.length > maxIds <;> simp [h]

/-- C3 (spec §4.3, §8): every ID-batch endpoint raises a local `ValueError`
(never reaching the executor) exactly when the id list exceeds its documented
maximum — 20 for albums, 50 for artists/shows/episodes/tracks, 100 for audio
features; at or below the maximum no error is raised and a request is
prepared. -/
theorem getMultiple_batch_limits (ids : List String) (market : String) :
    ((∃ e, get_multiple_albums ids (some market) = .error e) ↔ ids.length > 20) ∧
    ((∃ e, get_multiple_artists ids (some market) = .error e) ↔ ids.length > 50) ∧
    ((∃ e, get_multiple_shows ids market = .error e) ↔ ids.length > 50) ∧
    ((∃ e, get_multiple_episodes ids (some market) = .error e) ↔ ids.length > 50) ∧
    ((∃ e, get_multiple_tracks ids (some market) = .error e) ↔ ids.length > 50) ∧
    ((∃ e, get_multiple_tracks_audio_features ids = .error e) ↔ ids.length > 100) :=
  ⟨getMultiple_error_iff _ _ _ _, getMultiple_error_iff _ _ _ _,
   getMultiple_error_iff _ _ _ _, getMultiple_error_iff _ _ _ _,
   getMultiple_error_iff _ _ _ _, getMultiple_error_iff _ _ _ _⟩

/-- Closed witness for `getMultiple_batch_limits`: 21 album ids fail locally,
20 do not. -/
theorem getMultiple_batch_limits_witness :
    (∃ e, get_multiple_albums (List.replicate 21 "x") (some "US") = .error e) ∧
    ¬(∃ e, get_multiple_albums (List.replicate 20 "x") (some "US")
      = .error e) :=
  ⟨(getMultiple_batch_limits (List.replicate 21 "x") "US").1.mpr (by decide),
   (not_congr (getMultiple_batch_limits (List.replicate 20 "x") "US").1).mpr
     (by decide)⟩

/-! ## The request executor (`spotipy/http.py` `HTTPClient.request`, lines
148–209, and `aiospotify/http.py` `HTTPClient.request`, lines 100–179).

A transport is modelled as a stream of events, one per HTTP attempt: either a
complete response (status, `Retry-After` header value, parsed body) or an
`OSError` with an errno raised by the connection.  Sleeps performed by the
loop are recorded in order. -/

/-- The parsed body `json_or_text` hands back: either an error-shaped JSON
document (`error.status` / `error.message`) or plain text. -/
inductive Payload
  | json (errStatus : Nat) (message : String)
  | text (s : String)
deriving Repr, DecidableEq

/-- One HTTP response: its status, its `Retry-After` header (read only on
429) and its parsed body. -/
structure Response where
  status : Nat
  retryAfter : Nat
  payload : Payload
deriving Repr, DecidableEq

/-- One transport event: a response, or an `OSError` carrying an errno. -/
inductive Event
  | resp (r : Response)
  | oserr (errno : Int)
deriving Repr, DecidableEq

/-- What `HTTPError.__init__` (`spotipy/errors.py` lines 52–63) stores:
`_status = response.status` and `_message = data["error"]["message"]` when the
body is a dict, else the body text. -/
structure ErrInfo where
  status : Nat
  message : String
deriving Repr, DecidableEq

/-- `HTTPError.__init__`'s extraction of the message from the parsed body. -/
def Payload.message : Payload → String
  | .json _ m => m
  | .text s => s

/-- Build the `ErrInfo` that raising `HTTPError(response, data)` records. -/
def mkErrInfo (r : Response) : ErrInfo :=
  { status := r.status, message := r.payload.message }

/-- The errors `HTTPClient.request` can raise.  The typed constructors mirror
the class hierarchy of `spotipy/errors.py`; `osError` is a propagated
`OSError` and `runtimeError` the final `RuntimeError("This shouldn't
happen.")`.  The last three arise only in `aiospotify/http.py`, whose error
path is broken: `attributeError` for a `raise exceptions.X` where class `X`
does not exist in `aiospotify/exceptions.py`, and `keyError` / `typeError`
for `SpotifyHTTPError.__init__` crashing while reading the flat
`data["status"]` key from a nested error body (dict) or a text body (str). -/
inductive RequestError
  | badRequest (e : ErrInfo)
  | unauthorized (e : ErrInfo)
  | forbidden (e : ErrInfo)
  | notFound (e : ErrInfo)
  | requestEntityTooLarge (e : ErrInfo)
  | spotifyServerError (e : ErrInfo)
  | httpError (e : ErrInfo)
  | osError (errno : Int)
  | runtimeError
  | attributeError (name : String)
  | keyError (key : String)
  | typeError
deriving Repr, DecidableEq

/-- Evaluating `SpotifyHTTPError.__init__(response, data)`
(`aiospotify/exceptions.py` lines 55–61) on the bodies the API produces:
`data["status"]` raises `KeyError("status")` when `data` is the nested
`error`-shaped dict and `TypeError` when it is a plain string, so the typed
aiospotify error is never actually constructed. -/
def spotifyHTTPErrorInit : Payload → RequestError
  | .json _ _ => .keyError "status"
  | .text _ => .typeError

/-- `HTTPErrorMapping` (`spotipy/errors.py` lines 102–107): status code to
typed client-error constructor. -/
def HTTPErrorMapping (status : Nat) : ErrInfo → RequestError :=
  if status = 400 then .badRequest
  else if status = 401 then .unauthorized
  else if status = 403 then .forbidden
  else .notFound

/-- Outcome of `HTTPClient.request`: the returned body or the raised error,
together with the list of sleep durations (seconds) performed, in order. -/
inductive RequestResult
  | ok (body : Payload) (sleeps : List Nat)
  | err (e : RequestError) (sleeps : List Nat)
deriving Repr, DecidableEq

/-- The spotipy retry loop, `for tries in range(4)` with `fuel = 4 - tries`
remaining iterations; `last` is the `response` variable (the most recent
completed response, surviving `OSError` attempts), `sleeps` the sleeps done
so far.  Mirrors `spotipy/http.py` lines 154–209 branch for branch. -/
def requestLoop (events : Nat → Event) :
    Nat → Nat → Option Response → List Nat → RequestResult
  | 0, _, last, sleeps =>
    match last with
    | some r =>
      if 500 ≤ r.status then .err (.spotifyServerError (mkErrInfo r)) sleeps
      else .err (.httpError (mkErrInfo r)) sleeps
    | none => .err .runtimeError sleeps
  | fuel + 1, tries, last, sleeps =>
    match events tries with
    | .resp r =>
      if 200 ≤ r.status ∧ r.status < 300 then
        .ok r.payload sleeps
      else if r.status = 400 ∨ r.status = 401 ∨ r.status = 403 ∨ r.status = 404 then
        .err (HTTPErrorMapping r.status (mkErrInfo r)) sleeps
      else if r.status = 413 then
        .err (.requestEntityTooLarge
          { status := r.status, message := "Playlist image was too large." }) sleeps
      else if r.status = 429 then
        requestLoop events fuel (tries + 1) (some r) (sleeps ++ [r.retryAfter])
      else if r.status = 500 ∨ r.status = 502 ∨ r.status = 503 then
        requestLoop events fuel (tries + 1) (some r) (sleeps ++ [1 + tries * 2])
      else if 500 ≤ r.status then
        .err (.spotifyServerError (mkErrInfo r)) sleeps
      else
        .err (.httpError (mkErrInfo r)) sleeps
    | .oserr e =>
      if tries < 3 ∧ (e = 54 ∨ e = 10054) then
        requestLoop events fuel (tries + 1) last (sleeps ++ [1 + tries * 2])
      else
        .err (.osError e) sleeps

/-- `HTTPClient.request` of `spotipy/http.py`: the loop runs `tries` from 0
with 4 iterations of budget, no response seen yet and no sleeps done. -/
def spotipyRequest (events : Nat → Event) : RequestResult :=
  requestLoop events 4 0 none []

/-- The aiospotify retry loop (`aiospotify/http.py` lines 125–179):
`for tries in range(3)`; success statuses are exactly 200/201/202/204; a
status matched by no `case` falls through and the loop retries immediately
with no sleep; conn-reset retry requires `tries < 2`.  Its error raises are
broken in the source: the 400/401/403/404 branches raise
`BadRequest`/`Unauthorized`/`Forbidden`/`NotFound`, all of which inherit
`SpotifyHTTPError.__init__`, which crashes reading `data["status"]`
(`spotifyHTTPErrorInit`); the 413 branch's
`exceptions.RequestEntityTooLarge` and the tail's `exceptions.HTTPError`
(line 177) do not exist in `aiospotify/exceptions.py`, so those raises fail
with `AttributeError`; the tail's `exceptions.SpotifyServerError` (line 175)
exists but its constructor crashes the same way. -/
def aioRequestLoop (events : Nat → Event) :
    Nat → Nat → Option Response → List Nat → RequestResult
  | 0, _, last, sleeps =>
    match last with
    | some r =>
      if 500 ≤ r.status then .err (spotifyHTTPErrorInit r.payload) sleeps
      else .err (.attributeError "HTTPError") sleeps
    | none => .err .runtimeError sleeps
  | fuel + 1, tries, last, sleeps =>
    match events tries with
    | .resp r =>
      if r.status = 200 ∨ r.status = 201 ∨ r.status = 202 ∨ r.status = 204 then
        .ok r.payload sleeps
      else if r.status = 400 ∨ r.status = 401 ∨ r.status = 403 ∨ r.status = 404 then
        .err (spotifyHTTPErrorInit r.payload) sleeps
      else if r.status = 413 then
        .err (.attributeError "RequestEntityTooLarge") sleeps
      else if r.status = 429 then
        aioRequestLoop events fuel (tries + 1) (some r) (sleeps ++ [r.retryAfter])
      else if r.status = 500 ∨ r.status = 502 ∨ r.status = 503 then
        aioRequestLoop events fuel (tries + 1) (some r) (sleeps ++ [1 + tries * 2])
      else
        aioRequestLoop events fuel (tries + 1) (some r) sleeps
    | .oserr e =>
      if tries < 2 ∧ (e = 54 ∨ e = 10054) then
        aioRequestLoop events fuel (tries + 1) last (sleeps ++ [1 + tries * 2])
      else
        .err (.osError e) sleeps

/-- `HTTPClient.request` of `aiospotify/http.py`: 3 iterations of budget. -/
def aioRequest (events : Nat → Event) : RequestResult :=
  aioRequestLoop events 3 0 none []

/-- An attempt outcome that the loop retries without raising: a response with
status 429 or one of the retried 5xx statuses 500/502/503. -/
def retryableResp (e : Event) : Prop :=
  ∃ r, e = .resp r ∧
    (r.status = 429 ∨ r.status = 500 ∨ r.status = 502 ∨ r.status = 503)

/-- The spotipy loop's result depends only on the events inside its remaining
attempt window. -/
theorem requestLoop_congr (ev ev' : Nat → Event) :
    ∀ fuel tries last sleeps,
      (∀ i, tries ≤ i → i < tries + fuel → ev i = ev' i) →
      requestLoop ev fuel tries last sleeps =
        requestLoop ev' fuel tries last sleeps := by
  intro fuel
  induction fuel with
  | zero => intro tries last sleeps _; rfl
  | succ fuel ih =>
    intro tries last sleeps h
    have h0 : ev' tries = ev tries := (h tries le_rfl (by omega)).symm
    have hrec : ∀ last' sleeps',
        requestLoop ev fuel (tries + 1) last' sleeps' =
          requestLoop ev' fuel (tries + 1) last' sleeps' :=
      fun last' sleeps' =>
        ih (tries + 1) last' sleeps' (fun i h1 h2 => h i (by omega) (by omega))
    cases hev : ev tries with
    | resp r =>
      have hev' : ev' tries = .resp r := by rw [h0, hev]
      simp only [requestLoop, hev, hev']
      split_ifs <;> first | rfl | exact hrec _ _
    | oserr e =>
      have hev' : ev' tries = .oserr e := by rw [h0, hev]
      simp only [requestLoop, hev, hev']
      split_ifs <;> first | rfl | exact hrec _ _

/-- The aiospotify loop's result depends only on the events inside its
remaining attempt window. -/
theorem aioRequestLoop_congr (ev ev' : Nat → Event) :
    ∀ fuel tries last sleeps,
      (∀ i, tries ≤ i → i < tries + fuel → ev i = ev' i) →
      aioRequestLoop ev fuel tries last sleeps =
        aioRequestLoop ev' fuel tries last sleeps := by
  intro fuel
  induction fuel with
  | zero => intro tries last sleeps _; rfl
  | succ fuel ih =>
    intro tries last sleeps h
    have h0 : ev' tries = ev tries := (h tries le_rfl (by omega)).symm
    have hrec : ∀ last' sleeps',
        aioRequestLoop ev fuel (tries + 1) last' sleeps' =
          aioRequestLoop ev' fuel (tries + 1) last' sleeps' :=
      fun last' sleeps' =>
        ih (tries + 1) last' sleeps' (fun i h1 h2 => h i (by omega) (by omega))
    cases hev : ev tries with
    | resp r =>
      have hev' : ev' tries = .resp r := by rw [h0, hev]
      simp only [aioRequestLoop, hev, hev']
      split_ifs <;> first | rfl | exact hrec _ _
    | oserr e =>
      have hev' : ev' tries = .oserr e := by rw [h0, hev]
      simp only [aioRequestLoop, hev, hev']
      split_ifs <;> first | rfl | exact hrec _ _

/-- A retryable response makes the spotipy loop sleep once and continue with
that response recorded as last observed. -/
theorem retry_step (ev : Nat → Event) (fuel tries : Nat) (last : Option Response)
    (sleeps : List Nat) (r : Response) (hev : ev tries = .resp r)
    (hst : r.status = 429 ∨ r.status = 500 ∨ r.status = 502 ∨ r.status = 503) :
    ∃ d, requestLoop ev (fuel + 1) tries last sleeps =
      requestLoop ev fuel (tries + 1) (some r) (sleeps ++ [d]) := by
  rcases hst with h | h | h | h
  · exact ⟨r.retryAfter, by simp [requestLoop, hev, h]⟩
  · exact ⟨1 + tries * 2, by simp [requestLoop, hev, h]⟩
  · exact ⟨1 + tries * 2, by simp [requestLoop, hev, h]⟩
  · exact ⟨1 + tries * 2, by simp [requestLoop, hev, h]⟩

/-- A retryable response makes the aiospotify loop sleep once and continue
with that response recorded as last observed. -/
theorem aio_retry_step (ev : Nat → Event) (fuel tries : Nat)
    (last : Option Response) (sleeps : List Nat) (r : Response)
    (hev : ev tries = .resp r)
    (hst : r.status = 429 ∨ r.status = 500 ∨ r.status = 502 ∨ r.status = 503) :
    ∃ d, aioRequestLoop ev (fuel + 1) tries last sleeps =
      aioRequestLoop ev fuel (tries + 1) (some r) (sleeps ++ [d]) := by
  rcases hst with h | h | h | h
  · exact ⟨r.retryAfter, by simp [aioRequestLoop, hev, h]⟩
  · exact ⟨1 + tries * 2, by simp [aioRequestLoop, hev, h]⟩
  · exact ⟨1 + tries * 2, by simp [aioRequestLoop, hev, h]⟩
  · exact ⟨1 + tries * 2, by simp [aioRequestLoop, hev, h]⟩

/-- When every remaining attempt meets a retryable response, the spotipy loop
exhausts its budget and ends in the tail clause built from the last
response. -/
theorem requestLoop_exhaust (ev : Nat → Event) :
    ∀ fuel tries last sleeps, 0 < fuel →
      (∀ i, tries ≤ i → i < tries + fuel → retryableResp (ev i)) →
      ∃ r sleeps', ev (tries + fuel - 1) = .resp r ∧
        requestLoop ev fuel tries last sleeps =
          (if 500 ≤ r.status then .err (.spotifyServerError (mkErrInfo r)) sleeps'
           else .err (.httpError (mkErrInfo r)) sleeps') := by
  intro fuel
  induction fuel with
  | zero => intro tries last sleeps hf; exact absurd hf (lt_irrefl 0)
  | succ fuel ih =>
    intro tries last sleeps _ h
    obtain ⟨r, hev, hst⟩ := h tries le_rfl (by omega)
    obtain ⟨d, hstep⟩ := retry_step ev fuel tries last sleeps r hev hst
    rcases Nat.eq_zero_or_pos fuel with hf | hf
    · subst hf
      refine ⟨r, sleeps ++ [d], by simpa using hev, ?_⟩
      rw [hstep]
      simp [requestLoop]
    · obtain ⟨r', s', hev', hres⟩ :=
        ih (tries + 1) (some r) (sleeps ++ [d]) hf
          (fun i h1 h2 => h i (by omega) (by omega))
      refine ⟨r', s', ?_, ?_⟩
      · have harith : tries + 1 + fuel - 1 = tries + (fuel + 1) - 1 := by omega
        rwa [harith] at hev'
      · rw [hstep, hres]

/-- When every remaining attempt meets a retryable response, the aiospotify
loop exhausts its budget and ends in its (broken) tail clause for the last
response: a `SpotifyHTTPError.__init__` crash for status ≥ 500, an
`AttributeError` for the nonexistent `exceptions.HTTPError` otherwise. -/
theorem aioRequestLoop_exhaust (ev : Nat → Event) :
    ∀ fuel tries last sleeps, 0 < fuel →
      (∀ i, tries ≤ i → i < tries + fuel → retryableResp (ev i)) →
      ∃ r sleeps', ev (tries + fuel - 1) = .resp r ∧
        aioRequestLoop ev fuel tries last sleeps =
          (if 500 ≤ r.status then .err (spotifyHTTPErrorInit r.payload) sleeps'
           else .err (.attributeError "HTTPError") sleeps') := by
  intro fuel
  induction fuel with
  | zero => intro tries last sleeps hf; exact absurd hf (lt_irrefl 0)
  | succ fuel ih =>
    intro tries last sleeps _ h
    obtain ⟨r, hev, hst⟩ := h tries le_rfl (by omega)
    obtain ⟨d, hstep⟩ := aio_retry_step ev fuel tries last sleeps r hev hst
    rcases Nat.eq_zero_or_pos fuel with hf | hf
    · subst hf
      refine ⟨r, sleeps ++ [d], by simpa using hev, ?_⟩
      rw [hstep]
      simp [aioRequestLoop]
    · obtain ⟨r', s', hev', hres⟩ :=
        ih (tries + 1) (some r) (sleeps ++ [d]) hf
          (fun i h1 h2 => h i (by omega) (by omega))
      refine ⟨r', s', ?_, ?_⟩
      · have harith : tries + 1 + fuel - 1 = tries + (fuel + 1) - 1 := by omega
        rwa [harith] at hev'
      · rw [hstep, hres]

/-- C4 (spec §4.2, §8): a first response of 429 with `Retry-After = n`
followed by a success makes the executor sleep exactly once, for `n` seconds,
without raising on the 429, and return the successful body unchanged — in
both `spotipy/http.py` (any 2xx succeeds) and `aiospotify/http.py`
(200/201/202/204 succeed). -/
theorem request_429_retry_after (ev : Nat → Event) (r0 r1 : Response)
    (h0 : ev 0 = .resp r0) (hs0 : r0.status = 429) (h1 : ev 1 = .resp r1) :
    (200 ≤ r1.status ∧ r1.status < 300 →
      spotipyRequest ev = .ok r1.payload [r0.retryAfter]) ∧
    (r1.status = 200 ∨ r1.status = 201 ∨ r1.status = 202 ∨ r1.status = 204 →
      aioRequest ev = .ok r1.payload [r0.retryAfter]) := by
  constructor
  · intro hsucc
    simp only [spotipyRequest, requestLoop, h0, hs0]
    norm_num
    simp only [requestLoop, h1]
    simp [hsucc.1, hsucc.2]
  · intro hsucc
    simp only [aioRequest, aioRequestLoop, h0, hs0]
    norm_num
    simp only [aioRequestLoop, h1]
    rcases hsucc with h | h | h | h <;> simp [h]

/-- Closed witness for `request_429_retry_after`: a 429 with `Retry-After: 2`
then a 204 yields one 2-second sleep and the 204 body. -/
theorem request_429_retry_after_witness :
    spotipyRequest (fun i => if i = 0 then .resp ⟨429, 2, .text "rate"⟩
      else .resp ⟨204, 0, .text "body"⟩) = .ok (.text "body") [2] ∧
    aioRequest (fun i => if i = 0 then .resp ⟨429, 2, .text "rate"⟩
      else .resp ⟨204, 0, .text "body"⟩) = .ok (.text "body") [2] :=
  ⟨(request_429_retry_after
      (fun i => if i = 0 then .resp ⟨429, 2, .text "rate"⟩
        else .resp ⟨204, 0, .text "body"⟩)
      ⟨429, 2, .text "rate"⟩ ⟨204, 0, .text "body"⟩ rfl rfl rfl).1
      (by norm_num),
   (request_429_retry_after
      (fun i => if i = 0 then .resp ⟨429, 2, .text "rate"⟩
        else .resp ⟨204, 0, .text "body"⟩)
      ⟨429, 2, .text "rate"⟩ ⟨204, 0, .text "body"⟩ rfl rfl rfl).2
      (by norm_num)⟩

/-- Transport trace refuting the 3-attempt budget: three 503s then a 200. -/
def threeFailEvents : Nat → Event := fun i =>
  if i < 3 then .resp { status := 503, retryAfter := 0, payload := .text "u" }
  else .resp { status := 200, retryAfter := 0, payload := .text "p" }

/-- C5 counterexample: with the first three attempts all answered 503, the
spotipy executor still returns the success obtained on a fourth attempt
(after backoffs 1, 3, 5) — so it performs 4 HTTP attempts, not at most 3 as
claimed. -/
theorem spotipy_performs_four_attempts :
    threeFailEvents 0 = .resp { status := 503, retryAfter := 0, payload := .text "u" } ∧
    threeFailEvents 1 = .resp { status := 503, retryAfter := 0, payload := .text "u" } ∧
    threeFailEvents 2 = .resp { status := 503, retryAfter := 0, payload := .text "u" } ∧
    spotipyRequest threeFailEvents = .ok (.text "p") [1, 3, 5] := by
  decide

/-- C5 amended: the spotipy executor performs at most 4 HTTP attempts and the
aiospotify executor at most 3 (the result never depends on later events).
When every attempt in the budget yields a retryable response without a
success, each loop terminates on its tail clause for the last observed
response: spotipy raises a server error if that response's status is ≥ 500
and a generic HTTP error otherwise, built from that response; aiospotify
attempts the analogous raises but its error path is broken — for status
≥ 500 `SpotifyHTTPError.__init__` crashes reading `data["status"]` from the
nested error body (`KeyError`) or a text body (`TypeError`), and for status
< 500 the `raise exceptions.HTTPError(...)` itself fails with
`AttributeError` because that class does not exist. -/
theorem request_attempt_budget :
    (∀ ev ev' : Nat → Event, (∀ i, i < 4 → ev i = ev' i) →
      spotipyRequest ev = spotipyRequest ev') ∧
    (∀ ev ev' : Nat → Event, (∀ i, i < 3 → ev i = ev' i) →
      aioRequest ev = aioRequest ev') ∧
    (∀ ev : Nat → Event, (∀ i, i < 4 → retryableResp (ev i)) →
      ∃ r sleeps, ev 3 = .resp r ∧
        spotipyRequest ev =
          (if 500 ≤ r.status then .err (.spotifyServerError (mkErrInfo r)) sleeps
           else .err (.httpError (mkErrInfo r)) sleeps)) ∧
    (∀ ev : Nat → Event, (∀ i, i < 3 → retryableResp (ev i)) →
      ∃ r sleeps, ev 2 = .resp r ∧
        aioRequest ev =
          (if 500 ≤ r.status then .err (spotifyHTTPErrorInit r.payload) sleeps
           else .err (.attributeError "HTTPError") sleeps)) := by
  refine ⟨?_, ?_, ?_, ?_⟩
  · intro ev ev' h
    exact requestLoop_congr ev ev' 4 0 none [] (fun i _ h2 => h i (by omega))
  · intro ev ev' h
    exact aioRequestLoop_congr ev ev' 3 0 none [] (fun i _ h2 => h i (by omega))
  · intro ev h
    exact requestLoop_exhaust ev 4 0 none [] (by omega)
      (fun i _ h2 => h i (by omega))
  · intro ev h
    exact aioRequestLoop_exhaust ev 3 0 none [] (by omega)
      (fun i _ h2 => h i (by omega))

/-- Closed witness for `request_attempt_budget`: on an all-503 trace the
spotipy executor exhausts its budget and raises the server error built from
the last 503. -/
theorem request_attempt_budget_witness :
    ∃ r sleeps,
      (fun _ : Nat => Event.resp ⟨503, 0, .json 503 "oops"⟩) 3 = .resp r ∧
      spotipyRequest (fun _ => .resp ⟨503, 0, .json 503 "oops"⟩) =
        (if 500 ≤ r.status then .err (.spotifyServerError (mkErrInfo r)) sleeps
         else .err (.httpError (mkErrInfo r)) sleeps) :=
  request_attempt_budget.2.2.1 (fun _ => .resp ⟨503, 0, .json 503 "oops"⟩)
    (fun i _ => ⟨⟨503, 0, .json 503 "oops"⟩, rfl, by norm_num⟩)

/-- Transport trace whose 404 response carries an error body claiming status
400: distinguishes the response's status from the body's. -/
def bodyStatusEvents : Nat → Event := fun _ =>
  .resp { status := 404, retryAfter := 0, payload := .json 400 "nope" }

/-- C6 counterexample: on a 404 response whose parsed error body says
`status = 400`, the raised `NotFound` carries 404 — `HTTPError.__init__`
stores `response.status`, not the parsed body's `status` as the claim
states. -/
theorem client_error_status_from_response :
    spotipyRequest bodyStatusEvents =
      .err (.notFound { status := 404, message := "nope" }) [] ∧
    ErrInfo.status { status := 404, message := "nope" } ≠ 400 := by
  decide

/-- C6 amended: a 400/401/403/404 response makes the executor raise the
corresponding typed client error (BadRequest/Unauthorized/Forbidden/NotFound
per `HTTPErrorMapping`) immediately — on the first attempt, with no retry and
no sleep — carrying the response's HTTP status and the parsed error body's
message. -/
theorem client_error_immediate (ev : Nat → Event) (r : Response)
    (h0 : ev 0 = .resp r)
    (hst : r.status = 400 ∨ r.status = 401 ∨ r.status = 403 ∨ r.status = 404) :
    spotipyRequest ev = .err (HTTPErrorMapping r.status (mkErrInfo r)) [] ∧
    (∀ i : ErrInfo, HTTPErrorMapping 400 i = .badRequest i ∧
      HTTPErrorMapping 401 i = .unauthorized i ∧
      HTTPErrorMapping 403 i = .forbidden i ∧
      HTTPErrorMapping 404 i = .notFound i) ∧
    (∀ s m, r.payload = .json s m →
      mkErrInfo r = { status := r.status, message := m }) := by
  refine ⟨?_, ?_, ?_⟩
  · rcases hst with h | h | h | h <;>
      · simp only [spotipyRequest, requestLoop, h0, h]
        norm_num
  · intro i
    refine ⟨rfl, ?_, ?_, ?_⟩ <;> simp [HTTPErrorMapping]
  · intro s m hp
    simp [mkErrInfo, hp, Payload.message]

/-- Closed witness for `client_error_immediate`: a 401 with body message
"bad token" raises `Unauthorized` at once with that status and message. -/
theorem client_error_immediate_witness :
    spotipyRequest (fun _ => .resp ⟨401, 0, .json 401 "bad token"⟩) =
      .err (HTTPErrorMapping (Response.status ⟨401, 0, .json 401 "bad token"⟩)
        (mkErrInfo ⟨401, 0, .json 401 "bad token"⟩)) [] ∧
    (∀ i : ErrInfo, HTTPErrorMapping 400 i = .badRequest i ∧
      HTTPErrorMapping 401 i = .unauthorized i ∧
      HTTPErrorMapping 403 i = .forbidden i ∧
      HTTPErrorMapping 404 i = .notFound i) ∧
    (∀ s m, Response.payload ⟨401, 0, .json 401 "bad token"⟩ = .json s m →
      mkErrInfo ⟨401, 0, .json 401 "bad token"⟩ =
        { status := Response.status ⟨401, 0, .json 401 "bad token"⟩,
          message := m }) :=
  client_error_immediate (fun _ => .resp ⟨401, 0, .json 401 "bad token"⟩)
    ⟨401, 0, .json 401 "bad token"⟩ rfl (Or.inr (Or.inl rfl))

/-- C8 (spec §4.2): a connection-reset `OSError` (errno 54 on Unix, 10054 on
Windows) within the retry budget is retried with the same `1 + tries * 2`
backoff as the 500/502/503 branch; any other errno propagates immediately;
at the budget's edge the reset error propagates too — after 3 retries in
spotipy (backoffs 1, 3, 5) and 2 in aiospotify (backoffs 1, 3). -/
theorem connreset_retry_policy :
    (∀ (ev : Nat → Event) fuel tries last sleeps (e : Int), tries < 3 →
      (e = 54 ∨ e = 10054) → ev tries = .oserr e →
      requestLoop ev (fuel + 1) tries last sleeps =
        requestLoop ev fuel (tries + 1) last (sleeps ++ [1 + tries * 2])) ∧
    (∀ (ev : Nat → Event) fuel tries last sleeps (r : Response),
      ev tries = .resp r →
      (r.status = 500 ∨ r.status = 502 ∨ r.status = 503) →
      requestLoop ev (fuel + 1) tries last sleeps =
        requestLoop ev fuel (tries + 1) (some r) (sleeps ++ [1 + tries * 2])) ∧
    (∀ (ev : Nat → Event) fuel tries last sleeps (e : Int),
      ¬(e = 54 ∨ e = 10054) → ev tries = .oserr e →
      requestLoop ev (fuel + 1) tries last sleeps = .err (.osError e) sleeps) ∧
    (∀ (ev : Nat → Event) (e : Int), (e = 54 ∨ e = 10054) →
      (∀ i, i < 4 → ev i = .oserr e) →
      spotipyRequest ev = .err (.osError e) [1, 3, 5]) ∧
    (∀ (ev : Nat → Event) (e : Int), (e = 54 ∨ e = 10054) →
      (∀ i, i < 3 → ev i = .oserr e) →
      aioRequest ev = .err (.osError e) [1, 3]) := by
  refine ⟨?_, ?_, ?_, ?_, ?_⟩
  · intro ev fuel tries last sleeps e htries he hev
    simp [requestLoop, hev, htries, he]
  · intro ev fuel tries last sleeps r hev hst
    rcases hst with h | h | h <;> simp [requestLoop, hev, h]
  · intro ev fuel tries last sleeps e he hev
    simp [requestLoop, hev, he]
  · intro ev e he h
    simp only [spotipyRequest, requestLoop, h 0 (by omega), h 1 (by omega),
      h 2 (by omega), h 3 (by omega)]
    rcases he with he | he <;> subst he <;> norm_num
  · intro ev e he h
    simp only [aioRequest, aioRequestLoop, h 0 (by omega), h 1 (by omega),
      h 2 (by omega)]
    rcases he with he | he <;> subst he <;> norm_num

/-- Closed witness for `connreset_retry_policy`: every attempt raising
errno 54 exhausts 4 attempts with backoffs 1, 3, 5 and then propagates. -/
theorem connreset_retry_policy_witness :
    spotipyRequest (fun _ => .oserr 54) = .err (.osError 54) [1, 3, 5] :=
  connreset_retry_policy.2.2.2.1 (fun _ => .oserr 54) 54 (Or.inl rfl)
    (fun _ _ => rfl)

/-! ## Credentials (`spotipy/objects/credentials.py`).

Time is modelled in whole seconds (`Int`): `time.time()` at construction or
refresh becomes the recorded `_last_authorized_time`, the spec's `issued_at`.
`is_expired` is a pure comparison against a supplied current time — the
embedded functions perform no I/O. -/

/-- `ClientCredentials` (`spotipy/objects/credentials.py` lines 25–60):
token fields, client details and the `_last_authorized_time` stamp taken at
construction. -/
structure ClientCredentials where
  access_token : String
  token_type : String
  expires_in : Int
  client_id : String
  client_secret : String
  last_authorized_time : Int
deriving Repr, DecidableEq

/-- `ClientCredentials.is_expired` (line 59–60):
`(time.time() - self._last_authorized_time) >= self.expires_in`. -/
def ClientCredentials.is_expired (c : ClientCredentials) (now : Int) : Bool :=
  now - c.last_authorized_time ≥ c.expires_in

/-- `UserCredentials` (`spotipy/objects/credentials.py` lines 114–155):
the user-flow variant with `scope` and a stored `refresh_token`. -/
structure UserCredentials where
  access_token : String
  token_type : String
  expires_in : Int
  scope : String
  refresh_token : String
  client_id : String
  client_secret : String
  last_authorized_time : Int
deriving Repr, DecidableEq

/-- `UserCredentials.is_expired` (lines 154–155): same pure comparison. -/
def UserCredentials.is_expired (c : UserCredentials) (now : Int) : Bool :=
  now - c.last_authorized_time ≥ c.expires_in

/-- A successful token-endpoint response body as `UserCredentials.refresh` /
`from_refresh_token` consume it: the four always-read fields plus a
`refresh_token` key that the endpoint may omit. -/
structure UserTokenData where
  access_token : String
  token_type : String
  expires_in : Int
  scope : String
  refresh_token : Option String
deriving Repr, DecidableEq

/-- `UserCredentials.refresh` (lines 184–204): on a successful response the
object mutates `_access_token`, `_token_type`, `_scope`, `_expires_in` and
`_last_authorized_time` in place; no other attribute is touched (the
response's `refresh_token` key, if any, is never read). -/
def UserCredentials.refresh (c : UserCredentials) (data : UserTokenData)
    (now : Int) : UserCredentials :=
  { c with
    access_token := data.access_token
    token_type := data.token_type
    scope := data.scope
    expires_in := data.expires_in
    last_authorized_time := now }

/-- `UserCredentials.__init__` (lines 118–129) given a response dict: reads
`refresh_token` unconditionally, so construction fails (`KeyError`) when the
key is absent. -/
def UserCredentials.init (data : UserTokenData)
    (clientId clientSecret : String) (now : Int) : Option UserCredentials :=
  match data.refresh_token with
  | some rt => some
      { access_token := data.access_token
        token_type := data.token_type
        expires_in := data.expires_in
        scope := data.scope
        refresh_token := rt
        client_id := clientId
        client_secret := clientSecret
        last_authorized_time := now }
  | none => none

/-- `UserCredentials.from_refresh_token` (lines 157–182): when the token
response omits `refresh_token`, the prior refresh token is written into the
data before construction. -/
def UserCredentials.from_refresh_token (clientId clientSecret : String)
    (refreshToken : String) (data : UserTokenData) (now : Int) :
    Option UserCredentials :=
  let data2 :=
    if data.refresh_token.isSome then data
    else { data with refresh_token := some refreshToken }
  UserCredentials.init data2 clientId clientSecret now

/-- C9 (spec §3, §8): for both credential variants `is_expired` is the pure
comparison `now - issued_at ≥ expires_in`; with `expires_in = 3600` it is
true at `issued_at = now - 3601` and at the boundary `now - 3600`, false at
`now - 3599`. -/
theorem is_expired_spec (c : ClientCredentials) (u : UserCredentials)
    (now : Int) :
    (c.is_expired now = true ↔ now - c.last_authorized_time ≥ c.expires_in) ∧
    (u.is_expired now = true ↔ now - u.last_authorized_time ≥ u.expires_in) ∧
    ClientCredentials.is_expired
      { access_token := "t", token_type := "Bearer", expires_in := 3600,
        client_id := "c", client_secret := "s",
        last_authorized_time := now - 3601 } now = true ∧
    ClientCredentials.is_expired
      { access_token := "t", token_type := "Bearer", expires_in := 3600,
        client_id := "c", client_secret := "s",
        last_authorized_time := now - 3600 } now = true ∧
    ClientCredentials.is_expired
      { access_token := "t", token_type := "Bearer", expires_in := 3600,
        client_id := "c", client_secret := "s",
        last_authorized_time := now - 3599 } now = false ∧
    UserCredentials.is_expired
      { access_token := "t", token_type := "Bearer", expires_in := 3600,
        scope := "sc", refresh_token := "r", client_id := "c",
        client_secret := "s", last_authorized_time := now - 3601 } now = true ∧
    UserCredentials.is_expired
      { access_token := "t", token_type := "Bearer", expires_in := 3600,
        scope := "sc", refresh_token := "r", client_id := "c",
        client_secret := "s", last_authorized_time := now - 3599 } now
      = false := by
  refine ⟨by simp [ClientCredentials.is_expired],
    by simp [UserCredentials.is_expired], ?_, ?_, ?_, ?_, ?_⟩ <;>
    simp [ClientCredentials.is_expired, UserCredentials.is_expired]

/-- Closed witness for `is_expired_spec` at `now = 10000`. -/
theorem is_expired_spec_witness :
    ClientCredentials.is_expired
      { access_token := "t", token_type := "Bearer", expires_in := 3600,
        client_id := "c", client_secret := "s",
        last_authorized_time := 10000 - 3601 } 10000 = true ∧
    ClientCredentials.is_expired
      { access_token := "t", token_type := "Bearer", expires_in := 3600,
        client_id := "c", client_secret := "s",
        last_authorized_time := 10000 - 3600 } 10000 = true ∧
    ClientCredentials.is_expired
      { access_token := "t", token_type := "Bearer", expires_in := 3600,
        client_id := "c", client_secret := "s",
        last_authorized_time := 10000 - 3599 } 10000 = false :=
  ⟨(is_expired_spec
      ⟨"t", "Bearer", 3600, "c", "s", 0⟩
      ⟨"t", "Bearer", 3600, "sc", "r", "c", "s", 0⟩ 10000).2.2.1,
   (is_expired_spec
      ⟨"t", "Bearer", 3600, "c", "s", 0⟩
      ⟨"t", "Bearer", 3600, "sc", "r", "c", "s", 0⟩ 10000).2.2.2.1,
   (is_expired_spec
      ⟨"t", "Bearer", 3600, "c", "s", 0⟩
      ⟨"t", "Bearer", 3600, "sc", "r", "c", "s", 0⟩ 10000).2.2.2.2.1⟩

/-- C10: `UserCredentials.refresh` updates exactly `access_token`,
`token_type`, `scope`, `expires_in` and the last-authorized timestamp from
the token response; the stored `refresh_token`, `client_id` and
`client_secret` are never modified — even when the response carries a new
`refresh_token` it is ignored, so any chain of refreshes keeps the original
refresh token; `from_refresh_token` substitutes the prior refresh token only
when the response omits one. -/
theorem refresh_frame (c : UserCredentials) (data : UserTokenData)
    (now : Int) :
    (c.refresh data now).refresh_token = c.refresh_token ∧
    (c.refresh data now).client_id = c.client_id ∧
    (c.refresh data now).client_secret = c.client_secret ∧
    (c.refresh data now).access_token = data.access_token ∧
    (c.refresh data now).token_type = data.token_type ∧
    (c.refresh data now).scope = data.scope ∧
    (c.refresh data now).expires_in = data.expires_in ∧
    (c.refresh data now).last_authorized_time = now ∧
    (∀ rt, data.refresh_token = some rt →
      (c.refresh data now).refresh_token = c.refresh_token) ∧
    (∀ ds : List (UserTokenData × Int),
      (ds.foldl (fun a x => a.refresh x.1 x.2) c).refresh_token
        = c.refresh_token) ∧
    (∀ cid cs rt now2, data.refresh_token = none →
      ∃ u, UserCredentials.from_refresh_token cid cs rt data now2 = some u ∧
        u.refresh_token = rt) ∧
    (∀ cid cs rt rt0 now2, data.refresh_token = some rt0 →
      ∃ u, UserCredentials.from_refresh_token cid cs rt data now2 = some u ∧
        u.refresh_token = rt0) := by
  refine ⟨rfl, rfl, rfl, rfl, rfl, rfl, rfl, rfl, fun _ _ => rfl, ?_, ?_, ?_⟩
  · intro ds
    induction ds generalizing c with
    | nil => rfl
    | cons hd tl ih => exact ih (c.refresh hd.1 hd.2)
  · intro cid cs rt now2 hnone
    refine ⟨⟨data.access_token, data.token_type, data.expires_in, data.scope,
      rt, cid, cs, now2⟩, ?_, rfl⟩
    simp [UserCredentials.from_refresh_token, UserCredentials.init, hnone]
  · intro cid cs rt rt0 now2 hsome
    refine ⟨⟨data.access_token, data.token_type, data.expires_in, data.scope,
      rt0, cid, cs, now2⟩, ?_, rfl⟩
    simp [UserCredentials.from_refresh_token, UserCredentials.init, hsome]

/-- Closed witness for `refresh_frame`: a refresh whose response carries a
new refresh token still leaves the stored one untouched, and
`from_refresh_token` keeps the response's token when present. -/
theorem refresh_frame_witness :
    (UserCredentials.refresh
      { access_token := "a0", token_type := "Bearer", expires_in := 3600,
        scope := "sc", refresh_token := "RT0", client_id := "c",
        client_secret := "s", last_authorized_time := 0 }
      { access_token := "a1", token_type := "Bearer", expires_in := 3600,
        scope := "sc", refresh_token := some "RTnew" } 10).refresh_token
      = "RT0" ∧
    (∃ u, UserCredentials.from_refresh_token "c" "s" "RTprior"
        { access_token := "a1", token_type := "Bearer", expires_in := 3600,
          scope := "sc", refresh_token := some "RTnew" } 10 = some u ∧
      u.refresh_token = "RTnew") :=
  ⟨((refresh_frame
      { access_token := "a0", token_type := "Bearer", expires_in := 3600,
        scope := "sc", refresh_token := "RT0", client_id := "c",
        client_secret := "s", last_authorized_time := 0 }
      { access_token := "a1", token_type := "Bearer", expires_in := 3600,
        scope := "sc", refresh_token := some "RTnew" } 10).2.2.2.2.2.2.2.2.1
      "RTnew" rfl),
   ((refresh_frame
      { access_token := "a0", token_type := "Bearer", expires_in := 3600,
        scope := "sc", refresh_token := "RT0", client_id := "c",
        client_secret := "s", last_authorized_time := 0 }
      { access_token := "a1", token_type := "Bearer", expires_in := 3600,
        scope := "sc", refresh_token := some "RTnew" } 10).2.2.2.2.2.2.2.2.2.2.2
      "c" "s" "RTprior" "RTnew" 10 rfl)⟩

/-! ## Domain records (`spotipy/objects/album.py`, `base.py`, `artist.py`,
`image.py`).

JSON inputs are modelled as records whose `Option` fields are the
`NotRequired` keys of the source `TypedDict`s; `data["k"]` is a required
field, `data.get("k")` an `Option` read.  Enum coercion
(`ReleaseDatePrecision(value)`) can raise `ValueError` on an unknown code, so
record construction returns `Option`. -/

/-- `ImageData` (`spotipy/objects/image.py`). -/
structure ImageData where
  url : String
  width : Int
  height : Int
deriving Repr, DecidableEq

/-- `Image.__init__`: field extraction only. -/
structure Image where
  url : String
  width : Int
  height : Int
deriving Repr, DecidableEq

/-- Build an `Image` from its data. -/
def Image.ofData (d : ImageData) : Image :=
  { url := d.url, width := d.width, height := d.height }

/-- `SimpleArtistData` (`spotipy/objects/artist.py`): `BaseObjectData` (with
`name` `NotRequired`) plus `external_urls`.  `ExternalURLs` is a string
dictionary. -/
structure SimpleArtistData where
  href : String
  id : String
  name : Option String
  type : String
  uri : String
  external_urls : List (String × String)
deriving Repr, DecidableEq

/-- `SimpleArtist.__init__`: `BaseObject.__init__` fields plus
`external_urls`. -/
structure SimpleArtist where
  href : String
  id : String
  name : Option String
  type : String
  uri : String
  external_urls : List (String × String)
deriving Repr, DecidableEq

/-- Build a `SimpleArtist` from its data:
`self.name = data.get("name")`, everything else required. -/
def SimpleArtist.ofData (d : SimpleArtistData) : SimpleArtist :=
  { href := d.href, id := d.id, name := d.name, type := d.type, uri := d.uri,
    external_urls := d.external_urls }

/-- `ReleaseDatePrecision` (`spotipy/objects/enums.py` lines 73–76). -/
inductive ReleaseDatePrecision
  | year
  | month
  | day
deriving Repr, DecidableEq

/-- `ReleaseDatePrecision(value)`: Python enum lookup by value, raising
`ValueError` (here `none`) on an unknown code. -/
def ReleaseDatePrecision.ofString (s : String) : Option ReleaseDatePrecision :=
  if s = "year" then some .year
  else if s = "month" then some .month
  else if s = "day" then some .day
  else none

/-- Modelled from the spec: `RestrictionReason` is imported by
`spotipy/objects/album.py` from `.enums` but absent from this snapshot's
`enums.py`; spec §4.3 describes the step as enum coercion of the restriction
`reason` string code, so the coerced value is modelled as carrying that
code. -/
structure RestrictionReason where
  code : String
deriving Repr, DecidableEq

/-- `AlbumRestrictionData` (`spotipy/objects/album.py` lines 26–27). -/
structure AlbumRestrictionData where
  reason : String
deriving Repr, DecidableEq

/-- `AlbumRestriction.__init__` (lines 30–33):
`self.reason = RestrictionReason(data["reason"])`. -/
structure AlbumRestriction where
  reason : RestrictionReason
deriving Repr, DecidableEq

/-- Build an `AlbumRestriction` from its data. -/
def AlbumRestriction.ofData (d : AlbumRestrictionData) : AlbumRestriction :=
  { reason := { code := d.reason } }

/-- `SimpleAlbumData` (`spotipy/objects/album.py` lines 39–48):
`BaseObjectData` fields plus the album fields; `name`, `total_tracks`,
`available_markets` and `restrictions` are `NotRequired`. -/
structure SimpleAlbumData where
  href : String
  id : String
  name : Option String
  type : String
  uri : String
  album_type : String
  artists : List SimpleArtistData
  external_urls : List (String × String)
  images : List ImageData
  release_date : String
  release_date_precision : String
  total_tracks : Option Int
  available_markets : Option (List String)
  restrictions : Option AlbumRestrictionData
deriving Repr, DecidableEq

/-- `SimpleAlbum` attributes set by `SimpleAlbum.__init__` (lines 51–65) and
`BaseObject.__init__`.  The source stores the coerced precision under the
misspelled attribute `release_data_precision`; kept as in the source. -/
structure SimpleAlbum where
  href : String
  id : String
  name : Option String
  type : String
  uri : String
  album_type : String
  artists : List SimpleArtist
  external_urls : List (String × String)
  images : List Image
  release_date : String
  release_data_precision : ReleaseDatePrecision
  total_tracks : Int
  available_markets : Option (List String)
  restriction : Option AlbumRestriction
deriving Repr, DecidableEq

/-- `SimpleAlbum.__init__` (`spotipy/objects/album.py` lines 51–65):
required keys read directly, `name`/`available_markets` via `.get`,
`total_tracks` via `data.get("total_tracks", -1)`, `restrictions` parsed when
present, and `ReleaseDatePrecision(data["release_date_precision"])` which
fails on an unknown code. -/
def SimpleAlbum.ofData (d : SimpleAlbumData) : Option SimpleAlbum :=
  match ReleaseDatePrecision.ofString d.release_date_precision with
  | none => none
  | some p => some
      { href := d.href, id := d.id, name := d.name, type := d.type,
        uri := d.uri, album_type := d.album_type,
        artists := d.artists.map SimpleArtist.ofData,
        external_urls := d.external_urls,
        images := d.images.map Image.ofData,
        release_date := d.release_date,
        release_data_precision := p,
        total_tracks := d.total_tracks.getD (-1),
        available_markets := d.available_markets,
        restriction := d.restrictions.map AlbumRestriction.ofData }

/-- A minimal album JSON without the optional `total_tracks` key. -/
def sampleAlbumData : SimpleAlbumData :=
  { href := "h", id := "i", name := none, type := "album", uri := "u",
    album_type := "album", artists := [], external_urls := [], images := [],
    release_date := "2020", release_date_precision := "year",
    total_tracks := none, available_markets := none, restrictions := none }

/-- C7 counterexample: `SimpleAlbum` built from a JSON without the optional
`total_tracks` key gets `total_tracks = -1` (the `data.get` default at
`album.py` line 62), not an absent/None attribute as the claim states — the
attribute is a plain `int` with a `-1` sentinel. -/
theorem total_tracks_absent_defaults_to_minus_one :
    sampleAlbumData.total_tracks = none ∧
    ∃ a, SimpleAlbum.ofData sampleAlbumData = some a ∧
      a.total_tracks = -1 :=
  ⟨rfl, ⟨⟨"h", "i", none, "album", "u", "album", [], [], [], "2020", .year,
    -1, none, none⟩, rfl, rfl⟩⟩

/-- C7 amended: constructing `SimpleAlbum` from any JSON whose
`release_date_precision` carries a valid code never fails and reproduces
every field present in the JSON through the typed attributes — nested
artists/images/restriction included, with no field loss — and each absent
optional field maps to `none` without raising, except `total_tracks`, which
maps to the `-1` sentinel. -/
theorem simpleAlbum_roundtrip (d : SimpleAlbumData) (p : ReleaseDatePrecision)
    (hp : ReleaseDatePrecision.ofString d.release_date_precision = some p) :
    (∃ a, SimpleAlbum.ofData d = some a ∧
      a.href = d.href ∧ a.id = d.id ∧ a.name = d.name ∧ a.type = d.type ∧
      a.uri = d.uri ∧ a.album_type = d.album_type ∧
      a.artists = d.artists.map SimpleArtist.ofData ∧
      a.external_urls = d.external_urls ∧
      a.images = d.images.map Image.ofData ∧
      a.release_date = d.release_date ∧
      a.release_data_precision = p ∧
      (∀ t, d.total_tracks = some t → a.total_tracks = t) ∧
      (d.total_tracks = none → a.total_tracks = -1) ∧
      a.available_markets = d.available_markets ∧
      a.restriction = d.restrictions.map AlbumRestriction.ofData) ∧
    (∀ ad : SimpleArtistData, SimpleArtist.ofData ad =
      ⟨ad.href, ad.id, ad.name, ad.type, ad.uri, ad.external_urls⟩) ∧
    (∀ im : ImageData, Image.ofData im = ⟨im.url, im.width, im.height⟩) ∧
    (∀ rd : AlbumRestrictionData,
      AlbumRestriction.ofData rd = ⟨⟨rd.reason⟩⟩) := by
  refine ⟨?_, fun _ => rfl, fun _ => rfl, fun _ => rfl⟩
  refine ⟨⟨d.href, d.id, d.name, d.type, d.uri, d.album_type,
    d.artists.map SimpleArtist.ofData, d.external_urls,
    d.images.map Image.ofData, d.release_date, p, d.total_tracks.getD (-1),
    d.available_markets, d.restrictions.map AlbumRestriction.ofData⟩,
    ?_, rfl, rfl, rfl, rfl, rfl, rfl, rfl, rfl, rfl, rfl, rfl,
    ?_, ?_, rfl, rfl⟩
  · simp [SimpleAlbum.ofData, hp]
  · intro t ht
    simp [ht]
  · intro ht
    simp [ht]

/-- Closed witness for `simpleAlbum_roundtrip` at a concrete album JSON with
every optional field present. -/
theorem simpleAlbum_roundtrip_witness :
    ∃ a, SimpleAlbum.ofData
      { href := "h2", id := "i2", name := some "Album Two", type := "album",
        uri := "u2", album_type := "single",
        artists := [⟨"ha", "ia", some "Artist", "artist", "ua",
          [("spotify", "urlA")]⟩],
        external_urls := [("spotify", "url2")],
        images := [⟨"img", 64, 64⟩], release_date := "2021-05-01",
        release_date_precision := "day", total_tracks := some 7,
        available_markets := some ["US"],
        restrictions := some ⟨"market"⟩ } = some a ∧
      a.href = "h2" ∧ a.id = "i2" ∧ a.name = some "Album Two" ∧
      a.type = "album" ∧ a.uri = "u2" ∧ a.album_type = "single" ∧
      a.artists = [SimpleArtist.ofData ⟨"ha", "ia", some "Artist", "artist",
        "ua", [("spotify", "urlA")]⟩] ∧
      a.external_urls = [("spotify", "url2")] ∧
      a.images = [Image.ofData ⟨"img", 64, 64⟩] ∧
      a.release_date = "2021-05-01" ∧
      a.release_data_precision = .day ∧
      a.total_tracks = 7 ∧
      a.available_markets = some ["US"] ∧
      a.restriction = some (AlbumRestriction.ofData ⟨"market"⟩) := by
  obtain ⟨⟨a, ha, h⟩, -, -, -⟩ := simpleAlbum_roundtrip
    { href := "h2", id := "i2", name := some "Album Two", type := "album",
      uri := "u2", album_type := "single",
      artists := [⟨"ha", "ia", some "Artist", "artist", "ua",
        [("spotify", "urlA")]⟩],
      external_urls := [("spotify", "url2")],
      images := [⟨"img", 64, 64⟩], release_date := "2021-05-01",
      release_date_precision := "day", total_tracks := some 7,
      available_markets := some ["US"],
      restrictions := some ⟨"market"⟩ } .day rfl
  exact ⟨a, ha, h.1, h.2.1, h.2.2.1, h.2.2.2.1, h.2.2.2.2.1, h.2.2.2.2.2.1,
    h.2.2.2.2.2.2.1, h.2.2.2.2.2.2.2.1, h.2.2.2.2.2.2.2.2.1,
    h.2.2.2.2.2.2.2.2.2.1, h.2.2.2.2.2.2.2.2.2.2.1,
    h.2.2.2.2.2.2.2.2.2.2.2.1 7 rfl,
    h.2.2.2.2.2.2.2.2.2.2.2.2.2.1, h.2.2.2.2.2.2.2.2.2.2.2.2.2.2⟩

end Spotipy
